import Mathlib

/-!
Shallow embedding of the OpenCode Runner (packages/opencode-runner/src/OpenCodeRunner.ts).

The runner spawns an external `opencode run --format json` process, collects its
newline-delimited JSON output, and converts it into SDK messages.  JSON parsing of a
single line (`JSON.parse`) is abstracted as a function `String → Option OCEvent`:
`none` models a line on which `JSON.parse` throws, `some e` models the parsed event
dispatched on its `type` discriminator.  Nondeterministic fields of result messages
(`uuid`) and constant fields (`modelUsage`, `permission_denials`, `service_tier`,
the nested zeroed cache/server_tool_use counters) are omitted; `duration_ms`
(wall-clock elapsed) is threaded as an explicit parameter.  Monetary cost (a JS
number) is modelled as `Rat`.
-/

namespace OpenCode

/-- Decidable equality for promise-style results, used to evaluate the model on
concrete inputs. -/
instance {ε α : Type} [DecidableEq ε] [DecidableEq α] : DecidableEq (Except ε α) :=
  fun a b =>
    match a, b with
    | .ok x, .ok y => decidable_of_iff (x = y) (by simp)
    | .error x, .error y => decidable_of_iff (x = y) (by simp)
    | .ok _, .error _ => isFalse (by simp)
    | .error _, .ok _ => isFalse (by simp)

/-- Token counts carried in a step_finish event part. Each field is optional on the
wire; absent fields are coalesced to 0 by the accumulator. -/
structure TokenCounts where
  input : Option Nat
  output : Option Nat
deriving Repr, DecidableEq

/-- Payload of a step_finish event: optional token counts and an optional cost
(present only when `typeof part.cost === "number"`). -/
structure StepFinishPart where
  tokens : Option TokenCounts
  cost : Option Rat
deriving Repr, DecidableEq

/-- One successfully JSON-parsed NDJSON line, dispatched on its `type` tag, as in
`parseOpenCodeOutput`.  `step_start` carries the optional `event.sessionID`;
`text` carries the optional `event.part.text`; `step_finish` carries the optional
`event.part` with stats; unknown tags land in `other`. -/
inductive OCEvent where
  | step_start (sessionID : Option String)
  | text (partText : Option String)
  | tool_call (toolName : Option String)
  | tool_result
  | step_finish (part : Option StepFinishPart)
  | error (msg : String)
  | other (tag : String)
deriving Repr, DecidableEq

/-- JavaScript truthiness of an optional string: null/undefined and "" are falsy. -/
def strTruthy : Option String → Bool
  | none => false
  | some s => !s.isEmpty

/-- State of the accumulation loop in `parseOpenCodeOutput`: the mutable locals
`accumulatedText`, `totalInputTokens`, `totalOutputTokens`, `totalCost`, the
session id written to `this.sessionInfo`, and the list of `text` events emitted
to subscribers, in emission order. -/
structure ParseAcc where
  sessionId : String
  accumulatedText : String
  totalInputTokens : Nat
  totalOutputTokens : Nat
  totalCost : Rat
  emittedTexts : List String
deriving Repr, DecidableEq

/-- Initial accumulator, given the session id in force when the loop starts. -/
def initAcc (sid : String) : ParseAcc :=
  { sessionId := sid, accumulatedText := "", totalInputTokens := 0,
    totalOutputTokens := 0, totalCost := 0, emittedTexts := [] }

/-- One iteration of the switch in `parseOpenCodeOutput` on a parsed event. -/
def processEvent (acc : ParseAcc) : OCEvent → ParseAcc
  | .step_start sid =>
      match sid with
      | some s => if s.isEmpty then acc else { acc with sessionId := s }
      | none => acc
  | .text t =>
      match t with
      | some s =>
          if s.isEmpty then acc
          else { acc with accumulatedText := acc.accumulatedText ++ s,
                          emittedTexts := acc.emittedTexts ++ [s] }
      | none => acc
  | .tool_call _ => acc
  | .tool_result => acc
  | .step_finish part =>
      match part with
      | some p =>
          let acc1 :=
            match p.tokens with
            | some tk =>
                { acc with totalInputTokens := acc.totalInputTokens + tk.input.getD 0,
                           totalOutputTokens := acc.totalOutputTokens + tk.output.getD 0 }
            | none => acc
          match p.cost with
          | some c => { acc1 with totalCost := acc1.totalCost + c }
          | none => acc1
      | none => acc
  | .error _ => acc
  | .other _ => acc

/-- One iteration of the line loop: a line whose JSON parse failed (`none`) is
logged and skipped, never aborting the loop. -/
def processLine (acc : ParseAcc) : Option OCEvent → ParseAcc
  | some e => processEvent acc e
  | none => acc

/-- ASCII whitespace, as stripped by the JavaScript string trim method on the
outputs at hand (space, tab, newline, carriage return). -/
def isWS (c : Char) : Bool := c = ' ' || c = '\t' || c = '\n' || c = '\r'

/-- Strip leading and trailing whitespace from a character list (JS trim). -/
def trimChars (l : List Char) : List Char :=
  ((l.dropWhile isWS).reverse.dropWhile isWS).reverse

/-- Split a character list at newline characters (JS split on a newline). -/
def splitNL : List Char → List (List Char)
  | [] => [[]]
  | c :: cs =>
      let r := splitNL cs
      if c = '\n' then [] :: r
      else
        match r with
        | [] => [[c]]
        | h :: t => (c :: h) :: t

/-- Line splitting in `parseOpenCodeOutput`:
`output.trim().split("\n").filter((line) => line.trim())` — the filter keeps a
line exactly when its trimmed form is a truthy (non-empty) string. -/
def splitLines (output : String) : List String :=
  ((splitNL (trimChars output.data)).map (fun l => String.mk l)).filter
    (fun line => !(trimChars line.data).isEmpty)

/-- Usage block of a result message (fields the runner ever sets to non-constants). -/
structure Usage where
  input_tokens : Nat
  output_tokens : Nat
  cache_creation_input_tokens : Nat
  cache_read_input_tokens : Nat
deriving Repr, DecidableEq

/-- All-zero usage block, as produced on the error path. -/
def zeroUsage : Usage :=
  { input_tokens := 0, output_tokens := 0, cache_creation_input_tokens := 0,
    cache_read_input_tokens := 0 }

/-- Fields of an SDK result message.  `result` is present only on the success
path, `errors` only on the error path. -/
structure SDKResultMessage where
  subtype : String
  duration_ms : Nat
  duration_api_ms : Nat
  is_error : Bool
  num_turns : Nat
  result : Option String
  errors : Option (List String)
  total_cost_usd : Rat
  usage : Usage
  session_id : String
deriving Repr, DecidableEq

/-- SDK messages the runner produces: the synthesized assistant message (content
is a single text block) and the terminal result message. -/
inductive SDKMessage where
  | assistant (text : String) (session_id : String)
  | result (r : SDKResultMessage)
deriving Repr, DecidableEq

/-- Whether a message is of the terminal-result kind. -/
def isResultMessage : SDKMessage → Bool
  | .result _ => true
  | _ => false

/-- Result of `parseOpenCodeOutput`: the session id left on `this.sessionInfo`,
the `text` events emitted during the loop, the messages pushed via `emitMessage`
during the call (the synthesized assistant message, when any text accumulated),
and the deferred result message stored in `this.pendingResultMessage`. -/
structure ParseOutput where
  sessionId : String
  emittedTexts : List String
  emittedMessages : List SDKMessage
  pendingResult : Option SDKMessage
deriving Repr, DecidableEq

/-- Session id in force when the parse loop starts: the id already on the
session when truthy, otherwise the locally synthesized fallback
(`if (!this.sessionInfo.sessionId) sessionId = opencode-timestamp`). -/
def initialSessionId (genId : String) (sid0 : Option String) : String :=
  match sid0 with
  | some s => if s.isEmpty then genId else s
  | none => genId

/-- The body of `parseOpenCodeOutput`.  `parseLine` abstracts `JSON.parse` plus
event extraction; `genId` is the locally synthesized fallback id
(`opencode-` ++ timestamp); `sid0` is `this.sessionInfo.sessionId` on entry;
`durationMs` is `Date.now() - startedAt`.  On empty output the function warns
and returns early without queuing any result message. -/
def parseOpenCodeOutput (parseLine : String → Option OCEvent) (genId : String)
    (sid0 : Option String) (durationMs : Nat) (output : String) : ParseOutput :=
  let sid1 : String := initialSessionId genId sid0
  let lines := splitLines output
  if lines.isEmpty then
    { sessionId := sid1, emittedTexts := [], emittedMessages := [],
      pendingResult := none }
  else
    let acc := lines.foldl (fun a l => processLine a (parseLine l)) (initAcc sid1)
    let assistantMsgs : List SDKMessage :=
      if acc.accumulatedText.isEmpty then []
      else [SDKMessage.assistant acc.accumulatedText acc.sessionId]
    let resultMsg : SDKMessage := .result {
      subtype := "success", duration_ms := durationMs, duration_api_ms := 0,
      is_error := false, num_turns := 1,
      result := some acc.accumulatedText, errors := none,
      total_cost_usd := acc.totalCost,
      usage := { input_tokens := acc.totalInputTokens,
                 output_tokens := acc.totalOutputTokens,
                 cache_creation_input_tokens := 0,
                 cache_read_input_tokens := 0 },
      session_id := acc.sessionId }
    { sessionId := acc.sessionId, emittedTexts := acc.emittedTexts,
      emittedMessages := assistantMsgs, pendingResult := some resultMsg }

/-- Session info held on the runner (`this.sessionInfo`): the session id, unknown
until a provider event supplies it or parsing synthesizes one, and the running flag. -/
structure SessionInfo where
  sessionId : Option String
  isRunning : Bool
deriving Repr, DecidableEq

/-- Spawned child process handle, reduced to the one observable streaming
operations touch: whether its stdin channel is still open. -/
structure ProcessHandle where
  stdinOpen : Bool
deriving Repr, DecidableEq

/-- Runner instance state: the configuration flag `useServerMode`, the session
info, the message log, the deferred result holder, and the process handle. -/
structure RunnerState where
  useServerMode : Bool
  sessionInfo : Option SessionInfo
  messages : List SDKMessage
  pendingResultMessage : Option SDKMessage
  process : Option ProcessHandle
deriving Repr, DecidableEq

/-- Runner state right after the constructor: no session, no messages, no process. -/
def initialRunner (useServerMode : Bool) : RunnerState :=
  { useServerMode := useServerMode, sessionInfo := none, messages := [],
    pendingResultMessage := none, process := none }

/-- The isRunning method: `this.sessionInfo?.isRunning ?? false`. -/
def isRunning (s : RunnerState) : Bool :=
  match s.sessionInfo with
  | some si => si.isRunning
  | none => false

/-- The getMessages method returns a snapshot of the message log (the spread copy
is modelled separately at the heap level). -/
def getMessages (s : RunnerState) : List SDKMessage :=
  s.messages

/-- Errors raised synchronously by the precondition checks of the runner. -/
inductive RunnerError where
  | alreadyRunning
  | unsupportedMode
deriving Repr, DecidableEq

/-- Outcome of the spawned process, as observed by `runCLIMode`: either a close
event with an exit code and the collected stdout/stderr data, or a process
error event (for example a spawn failure). -/
inductive ProcessOutcome where
  | exited (code : Int) (stdout : String) (stderr : String)
  | procError (msg : String)
deriving Repr, DecidableEq

/-- Diagnostic text of the rejection produced by `runCLIMode` on a non-zero exit:
`OpenCode exited with code kkk: stderrData or Unknown error`. -/
def exitDiagnostic (code : Int) (stderr : String) : String :=
  "OpenCode exited with code " ++ toString code ++ ": " ++
    (if stderr.isEmpty then "Unknown error" else stderr)

/-- The body of `runCLIMode` after process termination: on exit code 0 the stdout
data is parsed, otherwise the promise rejects with the exit diagnostic; a
process error event rejects with its message. -/
def runCLIMode (parseLine : String → Option OCEvent) (genId : String)
    (sid0 : Option String) (durationMs : Nat) (proc : ProcessOutcome) :
    Except String ParseOutput :=
  match proc with
  | .exited code stdout stderr =>
      if code = 0 then .ok (parseOpenCodeOutput parseLine genId sid0 durationMs stdout)
      else .error (exitDiagnostic code stderr)
  | .procError msg => .error msg

/-- The session id stamped into the synthetic error result:
`this.sessionInfo?.sessionId || "pending"` (JS: null and "" are falsy). -/
def sessionIdOrPending (sid : Option String) : String :=
  match sid with
  | some s => if s.isEmpty then "pending" else s
  | none => "pending"

/-- The synthetic terminal result constructed on the error path of
`startWithPrompt`: `is_error` true, zeroed usage and cost, the captured error
text as the only errors entry, and the best-known session id or "pending". -/
def errorResultMessage (durationMs : Nat) (msg : String) (sid : Option String) :
    SDKMessage :=
  .result {
    subtype := "error_during_execution", duration_ms := durationMs,
    duration_api_ms := 0, is_error := true, num_turns := 0, result := none,
    errors := some [msg], total_cost_usd := 0, usage := zeroUsage,
    session_id := sessionIdOrPending sid }

/-- The startWithPrompt method.  Fails with AlreadyRunning while a session is
active, before any other effect.  Otherwise it installs a fresh SessionInfo
(id null, running), resets the message log, runs the CLI mode with the given
process outcome, and on either path flips isRunning to false, appends the
terminal message(s), clears the process handle and the deferred result holder,
and resolves with the final session info. -/
def startWithPrompt (parseLine : String → Option OCEvent) (genId : String)
    (durationMs : Nat) (s : RunnerState) (proc : ProcessOutcome) :
    RunnerState × Except RunnerError SessionInfo :=
  if isRunning s then (s, .error .alreadyRunning)
  else
    match runCLIMode parseLine genId none durationMs proc with
    | .ok po =>
        let si : SessionInfo := { sessionId := some po.sessionId, isRunning := false }
        ({ s with sessionInfo := some si,
                  messages := po.emittedMessages ++ po.pendingResult.toList,
                  pendingResultMessage := none, process := none },
         .ok si)
    | .error msg =>
        let si : SessionInfo := { sessionId := none, isRunning := false }
        ({ s with sessionInfo := some si,
                  messages := [errorResultMessage durationMs msg none],
                  pendingResultMessage := none, process := none },
         .ok si)

/-- The public start method delegates to startWithPrompt. -/
def start (parseLine : String → Option OCEvent) (genId : String)
    (durationMs : Nat) (s : RunnerState) (proc : ProcessOutcome) :
    RunnerState × Except RunnerError SessionInfo :=
  startWithPrompt parseLine genId durationMs s proc

/-- The startStreaming method: throws UnsupportedMode (before any other effect)
unless useServerMode is set, then delegates to startWithPrompt. -/
def startStreaming (parseLine : String → Option OCEvent) (genId : String)
    (durationMs : Nat) (s : RunnerState) (proc : ProcessOutcome) :
    RunnerState × Except RunnerError SessionInfo :=
  if !s.useServerMode then (s, .error .unsupportedMode)
  else startWithPrompt parseLine genId durationMs s proc

/-- The addStreamMessage method: throws UnsupportedMode unless useServerMode is
set; otherwise it only logs (no state change in the current implementation). -/
def addStreamMessage (s : RunnerState) (_content : String) :
    RunnerState × Except RunnerError Unit :=
  if !s.useServerMode then (s, .error .unsupportedMode)
  else (s, .ok ())

/-- The completeStream method: no mode check at all — it closes the process
stdin channel when a process handle is present, and never fails. -/
def completeStream (s : RunnerState) : RunnerState × Except RunnerError Unit :=
  match s.process with
  | some p => ({ s with process := some { p with stdinOpen := false } }, .ok ())
  | none => (s, .ok ())

/-- Observable events of one CLI-mode run: buffer appends from the child process
stream handlers, the process close event, and the events emitted to runner
subscribers. -/
inductive TraceEvent where
  | stdoutData (chunk : String)
  | stderrData (chunk : String)
  | processClosed (code : Int)
  | emitText (text : String)
  | emitMessage (m : SDKMessage)
  | emitAssistant (text : String)
  | emitError (msg : String)
  | emitComplete (msgs : List SDKMessage)
deriving Repr, DecidableEq

/-- Whether a trace event surfaces something to a subscriber of the runner. -/
def isEmit : TraceEvent → Bool
  | .stdoutData _ => false
  | .stderrData _ => false
  | .processClosed _ => false
  | _ => true

/-- Events emitted during `parseOpenCodeOutput`, in order: one text event per
truthy text fragment as the loop runs, then (when text accumulated) the
assistant message followed by the assistant event. -/
def parseTrace (po : ParseOutput) : List TraceEvent :=
  po.emittedTexts.map TraceEvent.emitText ++
  (po.emittedMessages.map (fun m =>
     [TraceEvent.emitMessage m] ++
     (match m with
      | .assistant t _ => [TraceEvent.emitAssistant t]
      | _ => []))).flatten

/-- Emissions of one CLI-mode run from the process close event onwards: on exit
code 0, the text and message events from parsing, then the deferred result
message, then the complete event; on a non-zero code, the synthetic error
result followed by the error event. -/
def startTraceTail (parseLine : String → Option OCEvent) (genId : String)
    (durationMs : Nat) (stdoutChunks stderrChunks : List String) (code : Int) :
    List TraceEvent :=
  if code = 0 then
    let po := parseOpenCodeOutput parseLine genId none durationMs
                (String.join stdoutChunks)
    parseTrace po ++ po.pendingResult.toList.map TraceEvent.emitMessage ++
    [TraceEvent.emitComplete (po.emittedMessages ++ po.pendingResult.toList)]
  else
    let msg := exitDiagnostic code (String.join stderrChunks)
    [TraceEvent.emitMessage (errorResultMessage durationMs msg none),
     TraceEvent.emitError msg]

/-- Observable trace of one CLI-mode start call whose child process closes with
the given exit code, having delivered the given stdout and stderr chunks.  The
stream data handlers only append chunks to the stdoutData/stderrData buffers
(they emit nothing), so the relative interleaving of chunk arrivals does not
affect the emissions; chunks are listed stdout first.  All parsing and all
emissions happen in the close handler and after it. -/
def startTrace (parseLine : String → Option OCEvent) (genId : String)
    (durationMs : Nat) (stdoutChunks stderrChunks : List String) (code : Int) :
    List TraceEvent :=
  stdoutChunks.map TraceEvent.stdoutData ++
  stderrChunks.map TraceEvent.stderrData ++
  [TraceEvent.processClosed code] ++
  startTraceTail parseLine genId durationMs stdoutChunks stderrChunks code

/-- Whether a trace event is the process close event. -/
def isProcessClosed : TraceEvent → Bool
  | .processClosed _ => true
  | _ => false

/-- The text payload of an emitText trace event, if any. -/
def emittedTextOf : TraceEvent → Option String
  | .emitText t => some t
  | _ => none

/-- Heap of JS arrays of SDK messages: a store from addresses to array contents
and a next-free address.  Allocated addresses are those below `next`.  Used to
state object-identity facts about the array copy made by getMessages. -/
structure MsgHeap where
  store : Nat → List SDKMessage
  next : Nat

/-- Allocate a fresh array with the given contents; returns the new heap and
the fresh address. -/
def allocArray (h : MsgHeap) (v : List SDKMessage) : MsgHeap × Nat :=
  ({ store := fun a => if a = h.next then v else h.store a, next := h.next + 1 },
   h.next)

/-- Overwrite the array at an address (a caller mutating an array it holds). -/
def writeArray (h : MsgHeap) (a : Nat) (v : List SDKMessage) : MsgHeap :=
  { h with store := fun b => if b = a then v else h.store b }

/-- Heap-level view of the runner object for the getMessages method: the field
holding the address of the internal messages array. -/
structure RunnerObj where
  messagesAddr : Nat

/-- The getMessages method at the heap level: the spread copy allocates a fresh
array holding the current contents of the internal messages array and returns
its address; no runner field is written. -/
def getMessagesHeap (h : MsgHeap) (r : RunnerObj) : MsgHeap × Nat :=
  allocArray h (h.store r.messagesAddr)

/-- Line of the demo transcript: a text event carrying "Hi ". -/
def lineHi : String :=
  "\x7b\"type\":\"text\",\"part\":\x7b\"text\":\"Hi \"\x7d\x7d"

/-- Line of the demo transcript: a text event carrying "there". -/
def lineThere : String :=
  "\x7b\"type\":\"text\",\"part\":\x7b\"text\":\"there\"\x7d\x7d"

/-- Line of the demo transcript: a step_start event carrying session id "abc". -/
def lineStartAbc : String :=
  "\x7b\"type\":\"step_start\",\"sessionID\":\"abc\"\x7d"

/-- Line of the demo transcript: a step_start event carrying session id "xyz". -/
def lineStartXyz : String :=
  "\x7b\"type\":\"step_start\",\"sessionID\":\"xyz\"\x7d"

/-- Line of the demo transcript: a step_finish event with tokens 10/5, cost 0.002. -/
def lineFinishA : String :=
  "\x7b\"type\":\"step_finish\",\"part\":\x7b\"tokens\":\x7b\"input\":10,\"output\":5\x7d,\"cost\":0.002\x7d\x7d"

/-- Line of the demo transcript: a step_finish event with tokens 3/1 and no cost. -/
def lineFinishB : String :=
  "\x7b\"type\":\"step_finish\",\"part\":\x7b\"tokens\":\x7b\"input\":3,\"output\":1\x7d\x7d\x7d"

/-- Line of the demo transcript that is not valid JSON. -/
def lineBad : String := "this line is not valid structured data"

/-- Concrete instance of the abstracted JSON line parse used in the scenario
theorems: it maps each demo line to the event its JSON denotes and fails on
everything else (in particular on the malformed demo line). -/
def demoParseLine (l : String) : Option OCEvent :=
  if l = lineHi then some (.text (some "Hi "))
  else if l = lineThere then some (.text (some "there"))
  else if l = lineStartAbc then some (.step_start (some "abc"))
  else if l = lineStartXyz then some (.step_start (some "xyz"))
  else if l = lineFinishA then
    some (.step_finish (some { tokens := some { input := some 10, output := some 5 },
                               cost := some 0.002 }))
  else if l = lineFinishB then
    some (.step_finish (some { tokens := some { input := some 3, output := some 1 },
                               cost := none }))
  else none

/-- Text fragments a parsed line contributes: the part.text of a text event when
it is truthy, nothing otherwise (including unparseable lines). -/
def eventTexts : Option OCEvent → List String
  | some (.text (some s)) => if s.isEmpty then [] else [s]
  | _ => []

/-- Text fragments of a parsed line sequence, in arrival order. -/
def textFragments (ls : List (Option OCEvent)) : List String :=
  (ls.map eventTexts).flatten

/-- Concatenation of a list of strings in order. -/
def concatAll : List String → String
  | [] => ""
  | s :: rest => s ++ concatAll rest

/-- Session id writes a parsed line performs: the sessionID of a step_start
event when it is truthy, nothing otherwise. -/
def eventSessionIds : Option OCEvent → List String
  | some (.step_start (some s)) => if s.isEmpty then [] else [s]
  | _ => []

/-- Session id writes of a parsed line sequence, in arrival order. -/
def sessionIdWrites (ls : List (Option OCEvent)) : List String :=
  (ls.map eventSessionIds).flatten

/-- Input token contribution of a parsed line (absent fields count as zero). -/
def eventInputTokens : Option OCEvent → Nat
  | some (.step_finish (some p)) =>
      match p.tokens with
      | some tk => tk.input.getD 0
      | none => 0
  | _ => 0

/-- Output token contribution of a parsed line (absent fields count as zero). -/
def eventOutputTokens : Option OCEvent → Nat
  | some (.step_finish (some p)) =>
      match p.tokens with
      | some tk => tk.output.getD 0
      | none => 0
  | _ => 0

/-- Cost contribution of a parsed line (absent cost counts as zero). -/
def eventCost : Option OCEvent → Rat
  | some (.step_finish (some p)) => p.cost.getD 0
  | _ => 0

/-- Parsed form of the lines of an output string. -/
def parsedLines (parseLine : String → Option OCEvent) (output : String) :
    List (Option OCEvent) :=
  (splitLines output).map parseLine

/-- The step_finish event denoted by the first demo step_finish line. -/
def evFinishA : OCEvent :=
  .step_finish (some { tokens := some { input := some 10, output := some 5 },
                       cost := some 0.002 })

/-- The step_finish event denoted by the second demo step_finish line. -/
def evFinishB : OCEvent :=
  .step_finish (some { tokens := some { input := some 3, output := some 1 },
                       cost := none })

/-- A CLI-mode runner instance whose session is currently running. -/
def runningCLIRunner : RunnerState :=
  { initialRunner false with sessionInfo := some { sessionId := none, isRunning := true } }

/-- A server-mode runner instance whose session is currently running. -/
def runningServerRunner : RunnerState :=
  { initialRunner true with sessionInfo := some { sessionId := none, isRunning := true } }

/-- A CLI-mode runner instance holding a process handle with open stdin. -/
def runnerWithStdin : RunnerState :=
  { initialRunner false with process := some { stdinOpen := true } }

/-- Demo heap with one allocated (empty) messages array at address 0. -/
def demoHeap : MsgHeap := { store := fun _ => [], next := 1 }

/-- The terminal result produced for a transcript consisting of the single demo
text line carrying "Hi ", with duration 7 and synthesized session id "g". -/
def demoTextResult : SDKResultMessage :=
  { subtype := "success", duration_ms := 7, duration_api_ms := 0,
    is_error := false, num_turns := 1, result := some "Hi ", errors := none,
    total_cost_usd := 0,
    usage := { input_tokens := 0, output_tokens := 0,
               cache_creation_input_tokens := 0, cache_read_input_tokens := 0 },
    session_id := "g" }

theorem processLine_fields (acc : ParseAcc) (l : Option OCEvent) :
    processLine acc l =
      { sessionId := (eventSessionIds l).getLastD acc.sessionId,
        accumulatedText := acc.accumulatedText ++ concatAll (eventTexts l),
        totalInputTokens := acc.totalInputTokens + eventInputTokens l,
        totalOutputTokens := acc.totalOutputTokens + eventOutputTokens l,
        totalCost := acc.totalCost + eventCost l,
        emittedTexts := acc.emittedTexts ++ eventTexts l } := by
  rcases l with _ | e
  · simp [processLine, eventSessionIds, eventTexts, eventInputTokens,
          eventOutputTokens, eventCost, concatAll, String.append_empty]
  rcases e with sid | t | n | _ | part | m | tag
  case step_start =>
    rcases sid with _ | s
    · simp [processLine, processEvent, eventSessionIds, eventTexts,
            eventInputTokens, eventOutputTokens, eventCost, concatAll,
            String.append_empty]
    by_cases h : s.isEmpty <;>
      simp [processLine, processEvent, eventSessionIds, eventTexts,
            eventInputTokens, eventOutputTokens, eventCost, concatAll,
            String.append_empty, h]
  case text =>
    rcases t with _ | s
    · simp [processLine, processEvent, eventSessionIds, eventTexts,
            eventInputTokens, eventOutputTokens, eventCost, concatAll,
            String.append_empty]
    by_cases h : s.isEmpty <;>
      simp [processLine, processEvent, eventSessionIds, eventTexts,
            eventInputTokens, eventOutputTokens, eventCost, concatAll,
            String.append_empty, h]
  case tool_call =>
    simp [processLine, processEvent, eventSessionIds, eventTexts,
          eventInputTokens, eventOutputTokens, eventCost, concatAll,
          String.append_empty]
  case tool_result =>
    simp [processLine, processEvent, eventSessionIds, eventTexts,
          eventInputTokens, eventOutputTokens, eventCost, concatAll,
          String.append_empty]
  case step_finish =>
    rcases part with _ | ⟨tk, c⟩
    · simp [processLine, processEvent, eventSessionIds, eventTexts,
            eventInputTokens, eventOutputTokens, eventCost, concatAll,
            String.append_empty]
    rcases tk with _ | tk <;> rcases c with _ | c <;>
      simp [processLine, processEvent, eventSessionIds, eventTexts,
            eventInputTokens, eventOutputTokens, eventCost, concatAll,
            String.append_empty]
  case error =>
    simp [processLine, processEvent, eventSessionIds, eventTexts,
          eventInputTokens, eventOutputTokens, eventCost, concatAll,
          String.append_empty]
  case other =>
    simp [processLine, processEvent, eventSessionIds, eventTexts,
          eventInputTokens, eventOutputTokens, eventCost, concatAll,
          String.append_empty]

theorem getLastD_append {α : Type} (e w : List α) (d : α) :
    (e ++ w).getLastD d = w.getLastD (e.getLastD d) := by
  induction e generalizing d with
  | nil => rfl
  | cons a e ih => rw [List.cons_append, List.getLastD_cons, ih, List.getLastD_cons]

theorem concatAll_append (a b : List String) :
    concatAll (a ++ b) = concatAll a ++ concatAll b := by
  induction a with
  | nil => simp [concatAll]
  | cons s a ih => simp [concatAll, ih, String.append_assoc]

theorem foldl_processLine_fields (ls : List (Option OCEvent)) (acc : ParseAcc) :
    ls.foldl processLine acc =
      { sessionId := (sessionIdWrites ls).getLastD acc.sessionId,
        accumulatedText := acc.accumulatedText ++ concatAll (textFragments ls),
        totalInputTokens := acc.totalInputTokens + (ls.map eventInputTokens).sum,
        totalOutputTokens := acc.totalOutputTokens + (ls.map eventOutputTokens).sum,
        totalCost := acc.totalCost + (ls.map eventCost).sum,
        emittedTexts := acc.emittedTexts ++ textFragments ls } := by
  induction ls generalizing acc with
  | nil => simp [sessionIdWrites, textFragments, concatAll, String.append_empty]
  | cons l ls ih =>
      rw [List.foldl_cons, ih, processLine_fields]
      simp only [sessionIdWrites, textFragments, List.map_cons, List.flatten_cons,
                 List.sum_cons, getLastD_append, concatAll_append,
                 String.append_assoc, List.append_assoc, add_assoc]

theorem foldl_processLine_filterMap (ls : List (Option OCEvent)) (acc : ParseAcc) :
    ls.foldl processLine acc = (ls.filterMap id).foldl processEvent acc := by
  induction ls generalizing acc with
  | nil => rfl
  | cons l ls ih =>
      rcases l with _ | e
      · simpa [processLine] using ih acc
      · simp [List.filterMap_cons, processLine, List.foldl_cons, ih]

/-- C1: evaluation of the code at the failing input.  A start whose process
exits 0 with empty stdout completes — start resolves with a session whose
isRunning is false — but the message log holds zero messages of the
terminal-result kind, not exactly one: parseOpenCodeOutput returns early on
empty output without queuing a result message. -/
theorem c1_empty_output_yields_no_result_message :
    (start demoParseLine "opencode-1730000000000" 5 (initialRunner false)
        (ProcessOutcome.exited 0 "" "")).2 =
      Except.ok { sessionId := some "opencode-1730000000000", isRunning := false } ∧
    isRunning (start demoParseLine "opencode-1730000000000" 5 (initialRunner false)
        (ProcessOutcome.exited 0 "" "")).1 = false ∧
    ((start demoParseLine "opencode-1730000000000" 5 (initialRunner false)
        (ProcessOutcome.exited 0 "" "")).1.messages.filter isResultMessage).length
      = 0 := by
  decide

/-- C2: a run whose process exits with a non-zero code resolves (does not
reject) with a non-running session, and the message log is exactly one terminal
result with is_error true, zeroed usage token fields and cost, the exit
diagnostic as its errors entry, and session id "pending" since none was
captured on this path. -/
theorem c2_nonzero_exit_error_result (parseLine : String → Option OCEvent)
    (genId : String) (durationMs : Nat) (s : RunnerState) (code : Int)
    (stdout stderr : String) (hrun : isRunning s = false) (hcode : code ≠ 0) :
    (start parseLine genId durationMs s (.exited code stdout stderr)).2 =
      Except.ok { sessionId := none, isRunning := false } ∧
    isRunning (start parseLine genId durationMs s (.exited code stdout stderr)).1
      = false ∧
    (start parseLine genId durationMs s (.exited code stdout stderr)).1.messages =
      [SDKMessage.result
        { subtype := "error_during_execution", duration_ms := durationMs,
          duration_api_ms := 0, is_error := true, num_turns := 0, result := none,
          errors := some [exitDiagnostic code stderr], total_cost_usd := 0,
          usage := { input_tokens := 0, output_tokens := 0,
                     cache_creation_input_tokens := 0,
                     cache_read_input_tokens := 0 },
          session_id := "pending" }] := by
  unfold start startWithPrompt runCLIMode
  rw [hrun]
  simp [hcode, errorResultMessage, sessionIdOrPending, zeroUsage, isRunning]

/-- Witness for C2 at exit code 137 from a fresh runner. -/
theorem c2_nonzero_exit_error_result_witness :
    isRunning (initialRunner false) = false ∧ (137 : Int) ≠ 0 ∧
    ((start demoParseLine "g" 5 (initialRunner false)
        (.exited 137 "boom" "")).2 =
      Except.ok { sessionId := none, isRunning := false } ∧
    isRunning (start demoParseLine "g" 5 (initialRunner false)
        (.exited 137 "boom" "")).1 = false ∧
    (start demoParseLine "g" 5 (initialRunner false)
        (.exited 137 "boom" "")).1.messages =
      [SDKMessage.result
        { subtype := "error_during_execution", duration_ms := 5,
          duration_api_ms := 0, is_error := true, num_turns := 0, result := none,
          errors := some [exitDiagnostic 137 ""], total_cost_usd := 0,
          usage := { input_tokens := 0, output_tokens := 0,
                     cache_creation_input_tokens := 0,
                     cache_read_input_tokens := 0 },
          session_id := "pending" }]) :=
  ⟨by decide, by decide,
   c2_nonzero_exit_error_result demoParseLine "g" 5 (initialRunner false) 137
     "boom" "" (by decide) (by decide)⟩

/-- C4 counterexample: with a CLI-mode runner whose session is running, calling
startStreaming fails with UnsupportedMode, not with AlreadyRunning, because the
server-mode check precedes the running check. -/
theorem c4_counterexample_streaming_unsupported :
    isRunning runningCLIRunner = true ∧
    (startStreaming demoParseLine "g" 0 runningCLIRunner
        (.exited 0 "" "")).2 = Except.error RunnerError.unsupportedMode ∧
    RunnerError.unsupportedMode ≠ RunnerError.alreadyRunning := by
  decide

/-- C4 (amended): while isRunning is true, start always fails with
AlreadyRunning, leaving the state untouched and independent of any process
outcome (so nothing is spawned); startStreaming does the same in server mode,
and in CLI mode fails equally early with UnsupportedMode instead. -/
theorem c4_running_start_fails_fast (parseLine : String → Option OCEvent)
    (genId : String) (durationMs : Nat) (s : RunnerState) (proc : ProcessOutcome)
    (h : isRunning s = true) :
    start parseLine genId durationMs s proc = (s, .error .alreadyRunning) ∧
    startStreaming parseLine genId durationMs s proc =
      (s, .error (if s.useServerMode then RunnerError.alreadyRunning
                  else RunnerError.unsupportedMode)) := by
  constructor
  · simp [start, startWithPrompt, h]
  · by_cases hm : s.useServerMode <;>
      simp [startStreaming, startWithPrompt, hm, h]

/-- Witness for the amended C4 on a running server-mode runner. -/
theorem c4_running_start_fails_fast_witness :
    isRunning runningServerRunner = true ∧
    (start demoParseLine "g" 0 runningServerRunner (.exited 0 "" "") =
       (runningServerRunner, .error .alreadyRunning) ∧
     startStreaming demoParseLine "g" 0 runningServerRunner (.exited 0 "" "") =
       (runningServerRunner, .error .alreadyRunning)) :=
  ⟨by decide,
   c4_running_start_fails_fast demoParseLine "g" 0 runningServerRunner
     (.exited 0 "" "") (by decide)⟩

/-- C5: a line that fails strict JSON parsing is skipped and does not abort the
rest: the whole accumulator (text, token totals, cost, session id) computed
from the full line sequence equals the one computed from the subsequence of
parseable lines; concretely, a malformed middle line between the two text lines
leaves the parse result identical to a fully well-formed transcript. -/
theorem c5_malformed_lines_skipped :
    (∀ (ls : List (Option OCEvent)) (acc : ParseAcc),
       ls.foldl processLine acc = (ls.filterMap id).foldl processEvent acc) ∧
    parseOpenCodeOutput demoParseLine "g" none 3
        (lineHi ++ "\n" ++ lineBad ++ "\n" ++ lineThere) =
      { sessionId := "g", emittedTexts := ["Hi ", "there"],
        emittedMessages := [SDKMessage.assistant "Hi there" "g"],
        pendingResult := some (SDKMessage.result
          { subtype := "success", duration_ms := 3, duration_api_ms := 0,
            is_error := false, num_turns := 1, result := some "Hi there",
            errors := none, total_cost_usd := 0,
            usage := { input_tokens := 0, output_tokens := 0,
                       cache_creation_input_tokens := 0,
                       cache_read_input_tokens := 0 },
            session_id := "g" }) } := by
  exact ⟨foldl_processLine_filterMap, by decide⟩

/-- C8 counterexample: in CLI mode completeStream does not fail with
UnsupportedMode — it has no mode guard and succeeds as a no-op that closes the
process stdin channel. -/
theorem c8_counterexample_completeStream_no_guard :
    runnerWithStdin.useServerMode = false ∧
    completeStream runnerWithStdin =
      ({ runnerWithStdin with process := some { stdinOpen := false } },
       Except.ok ()) ∧
    (Except.ok () : Except RunnerError Unit) ≠ .error .unsupportedMode := by
  decide

/-- C8 (amended): in CLI mode, startStreaming and addStreamMessage fail with
UnsupportedMode before any work and leave the state untouched; completeStream
performs no mode check at all — it never fails, and only closes the process
stdin channel when a process handle is present. -/
theorem c8_cli_mode_streaming_operations (s : RunnerState)
    (parseLine : String → Option OCEvent) (genId : String) (durationMs : Nat)
    (proc : ProcessOutcome) (content : String) (h : s.useServerMode = false) :
    startStreaming parseLine genId durationMs s proc =
      (s, .error .unsupportedMode) ∧
    addStreamMessage s content = (s, .error .unsupportedMode) ∧
    completeStream s =
      ({ s with process := s.process.map (fun p => { p with stdinOpen := false }) },
       .ok ()) := by
  refine ⟨?_, ?_, ?_⟩
  · simp [startStreaming, h]
  · simp [addStreamMessage, h]
  · cases hp : s.process with
    | none => simp [completeStream, hp]; rw [← hp]
    | some p => simp [completeStream, hp]

/-- Witness for the amended C8 on a CLI-mode runner with an open stdin handle. -/
theorem c8_cli_mode_streaming_operations_witness :
    runnerWithStdin.useServerMode = false ∧
    (startStreaming demoParseLine "g" 0 runnerWithStdin (.exited 0 "" "") =
       (runnerWithStdin, .error .unsupportedMode) ∧
     addStreamMessage runnerWithStdin "hello" =
       (runnerWithStdin, .error .unsupportedMode) ∧
     completeStream runnerWithStdin =
       ({ runnerWithStdin with
            process := runnerWithStdin.process.map
              (fun p => { p with stdinOpen := false }) },
        .ok ())) :=
  ⟨by decide,
   c8_cli_mode_streaming_operations runnerWithStdin demoParseLine "g" 0
     (.exited 0 "" "") "hello" (by decide)⟩

/-- C10: getMessages is a pure snapshot: the returned array is a fresh address
distinct from the internal one, its contents equal the internal log at call
time, no allocated array (in particular no runner-reachable one) changes, and
writing through the returned address changes neither the internal log nor the
contents a later getMessages call copies. -/
theorem c10_getMessages_fresh_snapshot (h : MsgHeap) (r : RunnerObj)
    (halloc : r.messagesAddr < h.next) :
    (getMessagesHeap h r).2 ≠ r.messagesAddr ∧
    (getMessagesHeap h r).1.store (getMessagesHeap h r).2 =
      h.store r.messagesAddr ∧
    (∀ b, b < h.next → (getMessagesHeap h r).1.store b = h.store b) ∧
    (∀ v, (writeArray (getMessagesHeap h r).1 (getMessagesHeap h r).2 v).store
        r.messagesAddr = h.store r.messagesAddr) ∧
    (∀ v,
      (getMessagesHeap
          (writeArray (getMessagesHeap h r).1 (getMessagesHeap h r).2 v) r).1.store
        (getMessagesHeap
          (writeArray (getMessagesHeap h r).1 (getMessagesHeap h r).2 v) r).2 =
      h.store r.messagesAddr) := by
  have hne : r.messagesAddr ≠ h.next := Nat.ne_of_lt halloc
  refine ⟨fun heq => hne ?_, ?_, ?_, ?_, ?_⟩
  · simpa [getMessagesHeap, allocArray] using heq.symm
  · simp [getMessagesHeap, allocArray]
  · intro b hb
    simp [getMessagesHeap, allocArray, Nat.ne_of_lt hb]
  · intro v
    simp [getMessagesHeap, allocArray, writeArray, hne]
  · intro v
    simp [getMessagesHeap, allocArray, writeArray, hne]

/-- Witness for C10 on a one-array heap. -/
theorem c10_getMessages_fresh_snapshot_witness :
    (0 : Nat) < 1 ∧
    ((getMessagesHeap demoHeap ⟨0⟩).2 ≠ 0 ∧
     (getMessagesHeap demoHeap ⟨0⟩).1.store (getMessagesHeap demoHeap ⟨0⟩).2 =
       [] ∧
     (∀ b, b < 1 → (getMessagesHeap demoHeap ⟨0⟩).1.store b = []) ∧
     (∀ v, (writeArray (getMessagesHeap demoHeap ⟨0⟩).1
         (getMessagesHeap demoHeap ⟨0⟩).2 v).store 0 = []) ∧
     (∀ v,
       (getMessagesHeap
           (writeArray (getMessagesHeap demoHeap ⟨0⟩).1
             (getMessagesHeap demoHeap ⟨0⟩).2 v) ⟨0⟩).1.store
         (getMessagesHeap
           (writeArray (getMessagesHeap demoHeap ⟨0⟩).1
             (getMessagesHeap demoHeap ⟨0⟩).2 v) ⟨0⟩).2 = [])) :=
  ⟨by decide, c10_getMessages_fresh_snapshot demoHeap ⟨0⟩ (by decide)⟩

theorem string_empty_append (s : String) : "" ++ s = s := rfl

theorem parseOpenCodeOutput_spec (parseLine : String → Option OCEvent)
    (genId : String) (sid0 : Option String) (durationMs : Nat) (output : String) :
    parseOpenCodeOutput parseLine genId sid0 durationMs output =
      if (splitLines output).isEmpty then
        { sessionId := initialSessionId genId sid0, emittedTexts := [],
          emittedMessages := [], pendingResult := none }
      else
        { sessionId := (sessionIdWrites (parsedLines parseLine output)).getLastD
            (initialSessionId genId sid0),
          emittedTexts := textFragments (parsedLines parseLine output),
          emittedMessages :=
            if (concatAll (textFragments (parsedLines parseLine output))).isEmpty
            then []
            else [SDKMessage.assistant
                    (concatAll (textFragments (parsedLines parseLine output)))
                    ((sessionIdWrites (parsedLines parseLine output)).getLastD
                       (initialSessionId genId sid0))],
          pendingResult := some (SDKMessage.result
            { subtype := "success", duration_ms := durationMs,
              duration_api_ms := 0, is_error := false, num_turns := 1,
              result := some (concatAll (textFragments (parsedLines parseLine output))),
              errors := none,
              total_cost_usd := ((parsedLines parseLine output).map eventCost).sum,
              usage := { input_tokens :=
                           ((parsedLines parseLine output).map eventInputTokens).sum,
                         output_tokens :=
                           ((parsedLines parseLine output).map eventOutputTokens).sum,
                         cache_creation_input_tokens := 0,
                         cache_read_input_tokens := 0 },
              session_id := (sessionIdWrites (parsedLines parseLine output)).getLastD
                (initialSessionId genId sid0) }) } := by
  have hfold : (splitLines output).foldl (fun a l => processLine a (parseLine l))
      (initAcc (initialSessionId genId sid0)) =
      { sessionId := (sessionIdWrites (parsedLines parseLine output)).getLastD
          (initialSessionId genId sid0),
        accumulatedText := concatAll (textFragments (parsedLines parseLine output)),
        totalInputTokens := ((parsedLines parseLine output).map eventInputTokens).sum,
        totalOutputTokens := ((parsedLines parseLine output).map eventOutputTokens).sum,
        totalCost := ((parsedLines parseLine output).map eventCost).sum,
        emittedTexts := textFragments (parsedLines parseLine output) } := by
    rw [show (splitLines output).foldl (fun a l => processLine a (parseLine l))
          (initAcc (initialSessionId genId sid0)) =
        (parsedLines parseLine output).foldl processLine
          (initAcc (initialSessionId genId sid0)) from by
          rw [parsedLines, List.foldl_map]]
    rw [foldl_processLine_fields]
    simp [initAcc, string_empty_append]
  unfold parseOpenCodeOutput
  by_cases he : (splitLines output).isEmpty
  · simp [he]
  · simp only [he, Bool.false_eq_true, if_false, hfold]

theorem parse_emittedTexts (parseLine : String → Option OCEvent) (genId : String)
    (sid0 : Option String) (durationMs : Nat) (output : String) :
    (parseOpenCodeOutput parseLine genId sid0 durationMs output).emittedTexts =
      textFragments (parsedLines parseLine output) := by
  rw [parseOpenCodeOutput_spec]
  by_cases he : (splitLines output).isEmpty
  · have h0 : splitLines output = [] := List.isEmpty_iff.mp he
    simp [he, parsedLines, h0, textFragments]
  · simp [he]

theorem filterMap_text_of_stdout (l : List String) :
    (l.map TraceEvent.stdoutData).filterMap emittedTextOf = [] := by
  induction l with
  | nil => rfl
  | cons c l ih => simp [emittedTextOf, ih]

theorem filterMap_text_of_stderr (l : List String) :
    (l.map TraceEvent.stderrData).filterMap emittedTextOf = [] := by
  induction l with
  | nil => rfl
  | cons c l ih => simp [emittedTextOf, ih]

theorem filterMap_text_of_emitMessage (msgs : List SDKMessage) :
    (msgs.map TraceEvent.emitMessage).filterMap emittedTextOf = [] := by
  induction msgs with
  | nil => rfl
  | cons m msgs ih => simp [emittedTextOf, ih]

theorem filterMap_text_of_emitText (l : List String) :
    (l.map TraceEvent.emitText).filterMap emittedTextOf = l := by
  induction l with
  | nil => rfl
  | cons t l ih => simp [emittedTextOf, ih]

theorem filterMap_text_of_msgEmits (msgs : List SDKMessage) :
    ((msgs.map (fun m =>
        [TraceEvent.emitMessage m] ++
        (match m with
         | .assistant t _ => [TraceEvent.emitAssistant t]
         | _ => []))).flatten).filterMap emittedTextOf = [] := by
  induction msgs with
  | nil => rfl
  | cons m msgs ih =>
      rw [List.map_cons, List.flatten_cons, List.filterMap_append, ih,
          List.append_nil]
      cases m with
      | assistant t sid => rfl
      | result r => rfl

theorem filterMap_text_of_parseTrace (po : ParseOutput) :
    (parseTrace po).filterMap emittedTextOf = po.emittedTexts := by
  rw [parseTrace, List.filterMap_append, filterMap_text_of_emitText,
      filterMap_text_of_msgEmits, List.append_nil]

/-- C3: the synthesized assistant message text and the result message result
field both equal the concatenation of the truthy text fragments in arrival
order, with no reordering; in particular, a process exiting 0 with the two demo
text lines yields the assistant text "Hi there" and a terminal result with
is_error false and result "Hi there". -/
theorem c3_text_fragments_concatenated_in_order :
    (∀ (parseLine : String → Option OCEvent) (genId : String)
       (sid0 : Option String) (durationMs : Nat) (output : String)
       (t sid : String),
       SDKMessage.assistant t sid ∈
         (parseOpenCodeOutput parseLine genId sid0 durationMs output).emittedMessages →
       t = concatAll (textFragments (parsedLines parseLine output))) ∧
    (∀ (parseLine : String → Option OCEvent) (genId : String)
       (sid0 : Option String) (durationMs : Nat) (output : String)
       (r : SDKResultMessage),
       (parseOpenCodeOutput parseLine genId sid0 durationMs output).pendingResult =
         some (SDKMessage.result r) →
       r.result = some (concatAll (textFragments (parsedLines parseLine output)))) ∧
    (start demoParseLine "g" 7 (initialRunner false)
        (.exited 0 (lineHi ++ "\n" ++ lineThere) "")).1.messages =
      [SDKMessage.assistant "Hi there" "g",
       SDKMessage.result
         { subtype := "success", duration_ms := 7, duration_api_ms := 0,
           is_error := false, num_turns := 1, result := some "Hi there",
           errors := none, total_cost_usd := 0,
           usage := { input_tokens := 0, output_tokens := 0,
                      cache_creation_input_tokens := 0,
                      cache_read_input_tokens := 0 },
           session_id := "g" }] := by
  refine ⟨?_, ?_, by decide⟩
  · intro parseLine genId sid0 durationMs output t sid hmem
    rw [parseOpenCodeOutput_spec] at hmem
    by_cases he : (splitLines output).isEmpty
    · simp [he] at hmem
    · by_cases ht : (concatAll (textFragments (parsedLines parseLine output))).isEmpty
      · simp [he, ht] at hmem
      · simp [he, ht] at hmem
        exact hmem.1
  · intro parseLine genId sid0 durationMs output r hr
    rw [parseOpenCodeOutput_spec] at hr
    by_cases he : (splitLines output).isEmpty
    · simp [he] at hr
    · simp [he] at hr
      subst hr
      rfl

/-- Witness for C3 on the two-line demo transcript. -/
theorem c3_text_fragments_concatenated_in_order_witness :
    (SDKMessage.assistant "Hi there" "g" ∈
       (parseOpenCodeOutput demoParseLine "g" none 7
         (lineHi ++ "\n" ++ lineThere)).emittedMessages) ∧
    "Hi there" =
      concatAll (textFragments (parsedLines demoParseLine
        (lineHi ++ "\n" ++ lineThere))) :=
  ⟨by decide,
   c3_text_fragments_concatenated_in_order.1 demoParseLine "g" none 7
     (lineHi ++ "\n" ++ lineThere) "Hi there" "g" (by decide)⟩

/-- C6: the session id recorded on the session (and stamped into the terminal
result) is the last truthy sessionID supplied by a step_start event, falling
back to the initial id when none is supplied; in particular, a step_start with
"abc" followed later by a step_start with "xyz" yields final session id "xyz"
on both the session and the terminal result. -/
theorem c6_session_id_last_writer_wins :
    (∀ (parseLine : String → Option OCEvent) (genId : String)
       (sid0 : Option String) (durationMs : Nat) (output : String),
       (parseOpenCodeOutput parseLine genId sid0 durationMs output).sessionId =
         (sessionIdWrites (parsedLines parseLine output)).getLastD
           (initialSessionId genId sid0)) ∧
    (parseOpenCodeOutput demoParseLine "g" none 2
        (lineStartAbc ++ "\n" ++ lineHi ++ "\n" ++ lineStartXyz)).sessionId =
      "xyz" ∧
    (parseOpenCodeOutput demoParseLine "g" none 2
        (lineStartAbc ++ "\n" ++ lineHi ++ "\n" ++ lineStartXyz)).pendingResult =
      some (SDKMessage.result
        { subtype := "success", duration_ms := 2, duration_api_ms := 0,
          is_error := false, num_turns := 1, result := some "Hi ",
          errors := none, total_cost_usd := 0,
          usage := { input_tokens := 0, output_tokens := 0,
                     cache_creation_input_tokens := 0,
                     cache_read_input_tokens := 0 },
          session_id := "xyz" }) := by
  refine ⟨?_, by decide, by decide⟩
  intro parseLine genId sid0 durationMs output
  rw [parseOpenCodeOutput_spec]
  by_cases he : (splitLines output).isEmpty
  · have h0 : splitLines output = [] := List.isEmpty_iff.mp he
    simp [he, parsedLines, h0, sessionIdWrites]
  · simp [he]

/-- C7: the terminal result carries the sums of the step_finish token counts
and costs across all step_finish events, with absent fields counting as zero;
in particular, a step_finish with tokens 10/5 and cost 0.002 followed by one
with tokens 3/1 and no cost yields usage totals 13 and 6 and total cost 0.002. -/
theorem c7_usage_totals_accumulated :
    (∀ (parseLine : String → Option OCEvent) (genId : String)
       (sid0 : Option String) (durationMs : Nat) (output : String)
       (r : SDKResultMessage),
       (parseOpenCodeOutput parseLine genId sid0 durationMs output).pendingResult =
         some (SDKMessage.result r) →
       r.usage.input_tokens =
         ((parsedLines parseLine output).map eventInputTokens).sum ∧
       r.usage.output_tokens =
         ((parsedLines parseLine output).map eventOutputTokens).sum ∧
       r.total_cost_usd = ((parsedLines parseLine output).map eventCost).sum) ∧
    (∃ r : SDKResultMessage,
       (parseOpenCodeOutput demoParseLine "g" none 2
           (lineFinishA ++ "\n" ++ lineFinishB)).pendingResult =
         some (SDKMessage.result r) ∧
       r.usage.input_tokens = 13 ∧ r.usage.output_tokens = 6 ∧
       r.total_cost_usd = 0.002 ∧ r.is_error = false) := by
  constructor
  · intro parseLine genId sid0 durationMs output r hr
    rw [parseOpenCodeOutput_spec] at hr
    by_cases he : (splitLines output).isEmpty
    · simp [he] at hr
    · simp [he] at hr
      subst hr
      exact ⟨rfl, rfl, rfl⟩
  · have hsplit : splitLines (lineFinishA ++ "\n" ++ lineFinishB) =
        [lineFinishA, lineFinishB] := by decide
    have hpl : parsedLines demoParseLine (lineFinishA ++ "\n" ++ lineFinishB) =
        [some evFinishA, some evFinishB] := by
      rw [parsedLines, hsplit]
      rfl
    have he : (splitLines (lineFinishA ++ "\n" ++ lineFinishB)).isEmpty = false := by
      rw [hsplit]
      rfl
    rw [parseOpenCodeOutput_spec]
    simp only [he, Bool.false_eq_true, if_false]
    refine ⟨_, rfl, ?_, ?_, ?_, rfl⟩
    · rw [hpl]
      decide
    · rw [hpl]
      decide
    · rw [hpl]
      simp [List.sum_cons, List.sum_nil, eventCost, evFinishA, evFinishB]

/-- Witness for C7 on a transcript with no step_finish events (totals zero). -/
theorem c7_usage_totals_accumulated_witness :
    ((parseOpenCodeOutput demoParseLine "g" none 7 lineHi).pendingResult =
       some (SDKMessage.result demoTextResult)) ∧
    (demoTextResult.usage.input_tokens =
       ((parsedLines demoParseLine lineHi).map eventInputTokens).sum ∧
     demoTextResult.usage.output_tokens =
       ((parsedLines demoParseLine lineHi).map eventOutputTokens).sum ∧
     demoTextResult.total_cost_usd =
       ((parsedLines demoParseLine lineHi).map eventCost).sum) :=
  ⟨by decide,
   c7_usage_totals_accumulated.1 demoParseLine "g" none 7 lineHi demoTextResult
     (by decide)⟩

/-- C9 counterexample: in a CLI-mode run of the two-line demo transcript, no
message or text fragment is surfaced before the process close event — the first
emission sits strictly after processClosed in the trace, refuting that
intermediate messages are surfaced while the process is still running. -/
theorem c9_counterexample_no_emission_before_exit :
    startTrace demoParseLine "g" 4 [lineHi ++ "\n" ++ lineThere] [] 0 =
      [TraceEvent.stdoutData (lineHi ++ "\n" ++ lineThere),
       TraceEvent.processClosed 0,
       TraceEvent.emitText "Hi ", TraceEvent.emitText "there",
       TraceEvent.emitMessage (SDKMessage.assistant "Hi there" "g"),
       TraceEvent.emitAssistant "Hi there",
       TraceEvent.emitMessage (SDKMessage.result
         { subtype := "success", duration_ms := 4, duration_api_ms := 0,
           is_error := false, num_turns := 1, result := some "Hi there",
           errors := none, total_cost_usd := 0,
           usage := { input_tokens := 0, output_tokens := 0,
                      cache_creation_input_tokens := 0,
                      cache_read_input_tokens := 0 },
           session_id := "g" }),
       TraceEvent.emitComplete
         [SDKMessage.assistant "Hi there" "g",
          SDKMessage.result
            { subtype := "success", duration_ms := 4, duration_api_ms := 0,
              is_error := false, num_turns := 1, result := some "Hi there",
              errors := none, total_cost_usd := 0,
              usage := { input_tokens := 0, output_tokens := 0,
                         cache_creation_input_tokens := 0,
                         cache_read_input_tokens := 0 },
              session_id := "g" }]] ∧
    ((startTrace demoParseLine "g" 4 [lineHi ++ "\n" ++ lineThere] [] 0).takeWhile
        (fun e => !isProcessClosed e)).filter isEmit = [] ∧
    (startTrace demoParseLine "g" 4 [lineHi ++ "\n" ++ lineThere] [] 0).filter
        isEmit ≠ [] := by
  decide

/-- C9 (amended): the CLI-mode runner buffers stdout and surfaces nothing while
the process runs: every emission in the trace of a run sits after the process
close event, and the text fragments it emits afterwards are exactly the
fragments of the output in arrival order. -/
theorem c9_emissions_only_after_process_exit :
    (∀ (parseLine : String → Option OCEvent) (genId : String) (durationMs : Nat)
       (stdoutChunks stderrChunks : List String) (code : Int),
       ∃ pre post,
         startTrace parseLine genId durationMs stdoutChunks stderrChunks code =
           pre ++ TraceEvent.processClosed code :: post ∧
         ∀ e ∈ pre, isEmit e = false) ∧
    (∀ (parseLine : String → Option OCEvent) (genId : String) (durationMs : Nat)
       (stdoutChunks stderrChunks : List String) (code : Int),
       (startTrace parseLine genId durationMs stdoutChunks
           stderrChunks code).filterMap emittedTextOf =
         if code = 0 then
           textFragments (parsedLines parseLine (String.join stdoutChunks))
         else []) := by
  constructor
  · intro parseLine genId durationMs stdoutChunks stderrChunks code
    refine ⟨stdoutChunks.map TraceEvent.stdoutData ++
              stderrChunks.map TraceEvent.stderrData,
            startTraceTail parseLine genId durationMs stdoutChunks stderrChunks
              code, ?_, ?_⟩
    · simp [startTrace, List.append_assoc]
    · intro e he
      rcases List.mem_append.mp he with h | h <;>
        (obtain ⟨c, _, rfl⟩ := List.mem_map.mp h; rfl)
  · intro parseLine genId durationMs stdoutChunks stderrChunks code
    by_cases hc : code = 0
    · subst hc
      simp only [startTrace, startTraceTail, if_pos rfl, List.filterMap_append,
                 filterMap_text_of_stdout, filterMap_text_of_stderr,
                 filterMap_text_of_parseTrace, filterMap_text_of_emitMessage,
                 List.nil_append, List.append_nil, if_true]
      rw [parse_emittedTexts]
      simp [emittedTextOf, List.filterMap_cons]
    · simp only [startTrace, startTraceTail, hc, if_false, List.filterMap_append,
                 filterMap_text_of_stdout, filterMap_text_of_stderr,
                 List.nil_append, List.append_nil]
      simp [emittedTextOf, List.filterMap_cons, hc]

end OpenCode
